import Mathlib

/-!
# Verification of the focus-wizard bridge core

Shallow embedding of the state-derivation pipeline of the `focus-wizard`
repository (`bridge/src/metrics_collector.cpp`, `bridge/src/focus_analyzer.cpp`):

* the sliding-window blink-rate estimator (`estimate_blink_rate`),
* the landmark-based gaze estimator inside `process_edge_metrics`,
* the priority-ordered focus classifier (`FocusAnalyzer::analyze`).

C++ `float` values are modelled as exact rationals (`ℚ`); the one
floating-point primitive the code uses, `std::sqrt`, is abstracted as an
explicit function parameter `sqrtFn : ℚ → ℚ`, so theorems quantify over any
square-root realisation.  `std::chrono::steady_clock` times are modelled as
rational numbers of seconds passed explicitly to each call; the
`duration_cast<milliseconds>` truncation in the classifier is modelled
exactly with `Int.floor`.
-/

/-- The seven focus states of `FocusState` in `focus_analyzer.hpp`. -/
inductive FocusState where
  | FOCUSED
  | DISTRACTED
  | DROWSY
  | STRESSED
  | AWAY
  | TALKING
  | UNKNOWN
deriving DecidableEq, Repr

/-- `FocusThresholds` from `focus_analyzer.hpp`. -/
structure FocusThresholds where
  blink_rate_drowsy_threshold : ℚ
  pulse_stressed_threshold : ℚ
  breathing_stressed_threshold : ℚ
  gaze_distraction_threshold : ℚ
  face_absence_timeout_s : ℚ
deriving DecidableEq, Repr

/-- The default member initialisers of `FocusThresholds`. -/
def defaultThresholds : FocusThresholds :=
  ⟨25, 100, 22, 3/10, 3⟩

/-- The aggregated snapshot `FocusMetrics` from `metrics_collector.hpp`. -/
structure FocusMetrics where
  pulse_rate_bpm : ℚ
  pulse_confidence : ℚ
  has_pulse : Bool
  breathing_rate_bpm : ℚ
  breathing_confidence : ℚ
  has_breathing : Bool
  face_detected : Bool
  is_blinking : Bool
  is_talking : Bool
  blink_rate_per_min : ℚ
  gaze_x : ℚ
  gaze_y : ℚ
  has_gaze : Bool
  timestamp_us : ℤ
deriving DecidableEq, Repr

/-- The default member initialisers of `FocusMetrics`. -/
def defaultFocusMetrics : FocusMetrics :=
  ⟨0, 0, false, 0, 0, false, false, false, false, 0, 0, 0, false, 0⟩

/-- The private face-absence tracker of `FocusAnalyzer`:
`last_face_seen_` (seconds on the monotonic clock) and `ever_seen_face_`. -/
structure AnalyzerState where
  last_face_seen : ℚ
  ever_seen_face : Bool
deriving DecidableEq, Repr

/-- Result of one `FocusAnalyzer::analyze` call: the updated tracker state,
the chosen `FocusState` and the focus score. -/
structure AnalyzeResult where
  tracker : AnalyzerState
  state : FocusState
  score : ℚ
deriving DecidableEq, Repr

/-- The DROWSY trigger from `focus_analyzer.cpp` lines 93–97, verbatim:
`high_blink_rate || (high_blink_rate && slow_breathing)`. -/
def drowsyCondition (th : FocusThresholds) (m : FocusMetrics) : Bool :=
  let high_blink_rate := decide (m.blink_rate_per_min > th.blink_rate_drowsy_threshold)
  let slow_breathing := m.has_breathing && decide (m.breathing_rate_bpm < 12)
  high_blink_rate || (high_blink_rate && slow_breathing)

/-- The spec's collapsed DROWSY condition: blink rate exceeds the drowsy
threshold (breathing plays no role). -/
def drowsyConditionSpec (th : FocusThresholds) (m : FocusMetrics) : Bool :=
  decide (m.blink_rate_per_min > th.blink_rate_drowsy_threshold)

/-- The STRESSED trigger from `focus_analyzer.cpp` lines 105–111:
`elevated_pulse && fast_breathing`. -/
def stressedCondition (th : FocusThresholds) (m : FocusMetrics) : Bool :=
  let elevated_pulse := m.has_pulse && decide (m.pulse_rate_bpm > th.pulse_stressed_threshold)
  let fast_breathing := m.has_breathing && decide (m.breathing_rate_bpm > th.breathing_stressed_threshold)
  elevated_pulse && fast_breathing

/-- The FOCUSED score from `focus_analyzer.cpp` lines 121–127:
`min(1.0, pulse_stressed_threshold / pulse_rate_bpm)` when a positive pulse
is present, else `1.0`. -/
def focusedScore (th : FocusThresholds) (m : FocusMetrics) : ℚ :=
  if m.has_pulse ∧ m.pulse_rate_bpm > 0 then
    min 1 (th.pulse_stressed_threshold / m.pulse_rate_bpm)
  else 1

/-- The state/score determination of `FocusAnalyzer::analyze`
(`focus_analyzer.cpp` lines 52–134), evaluated against the already-updated
face tracker `s'`.

The C++ initialises `state = UNKNOWN, score = 0.5` and lets each rule fire
only while `state == UNKNOWN` (no rule ever assigns `UNKNOWN`), so the
sentinel-guarded sequence of `if` statements is translated as the equivalent
nested if-else chain; the trailing `if (state == UNKNOWN) score = 0.5` is a
no-op (score is only ever written together with state) and is subsumed by
the `(UNKNOWN, 1/2)` leaves.  `absence_duration` models
`duration_cast<milliseconds>(now - last_face_seen_).count() / 1000.0f`
exactly, including the truncation to whole milliseconds. -/
def analyzeStateScore (sqrtFn : ℚ → ℚ) (th : FocusThresholds)
    (s' : AnalyzerState) (now : ℚ) (m : FocusMetrics) : FocusState × ℚ :=
  if s'.ever_seen_face ∧ ¬m.face_detected ∧
      ((now - s'.last_face_seen) * 1000).floor / 1000 > th.face_absence_timeout_s then
    (FocusState.AWAY, 0)
  else if m.face_detected then
    if m.is_talking then
      (FocusState.TALKING, 3/10)
    else if m.has_gaze ∧
        sqrtFn (m.gaze_x * m.gaze_x + m.gaze_y * m.gaze_y) >
          th.gaze_distraction_threshold then
      (FocusState.DISTRACTED,
        max (1/10)
          (6/10 - sqrtFn (m.gaze_x * m.gaze_x + m.gaze_y * m.gaze_y) * (3/10)))
    else if drowsyCondition th m then
      (FocusState.DROWSY, 3/20)
    else if stressedCondition th m then
      (FocusState.STRESSED, 1/4)
    else if s'.ever_seen_face then
      (FocusState.FOCUSED, focusedScore th m)
    else
      (FocusState.UNKNOWN, 1/2)
  else
    (FocusState.UNKNOWN, 1/2)

/-- `FocusAnalyzer::analyze` (`focus_analyzer.cpp` lines 43–137): update the
face tracker from the current observation (lines 47–50), then run the
priority rules. -/
def analyze (sqrtFn : ℚ → ℚ) (th : FocusThresholds) (s : AnalyzerState)
    (now : ℚ) (m : FocusMetrics) : AnalyzeResult :=
  let s' : AnalyzerState := if m.face_detected then ⟨now, true⟩ else s
  let r : FocusState × ℚ := analyzeStateScore sqrtFn th s' now m
  ⟨s', r.1, r.2⟩

/-! ## Blink-rate estimator (`metrics_collector.cpp` lines 28–48) -/

/-- The estimator's state: the `blink_timestamps` deque (front = head of the
list, timestamps in seconds) and the `prev_blink_state` flag.  Both are
`static` in the C++, initialised to empty / `false`. -/
structure BlinkState where
  blink_timestamps : List ℚ
  prev_blink_state : Bool
deriving DecidableEq, Repr

/-- The initial values of the two `static` variables. -/
def initialBlinkState : BlinkState := ⟨[], false⟩

/-- `estimate_blink_rate` (`metrics_collector.cpp` lines 31–48): on a rising
edge push `now`; evict front entries older than 60 seconds; return the window
count (reported as blinks-per-minute).  `now` is the steady-clock reading of
this call, passed explicitly. -/
def estimate_blink_rate (now : ℚ) (currently_blinking : Bool) (s : BlinkState) :
    BlinkState × ℚ :=
  let ts1 : List ℚ :=
    if currently_blinking && !s.prev_blink_state then s.blink_timestamps ++ [now]
    else s.blink_timestamps
  let cutoff : ℚ := now - 60
  let ts2 : List ℚ := ts1.dropWhile (fun t => decide (t < cutoff))
  (⟨ts2, currently_blinking⟩, (ts2.length : ℚ))

/-- Run the estimator over a sequence of `(call time, blink flag)` pairs,
keeping only the state. -/
def runBlink (s : BlinkState) (calls : List (ℚ × Bool)) : BlinkState :=
  calls.foldl (fun a c => (estimate_blink_rate c.1 c.2 a).1) s

/-- The rising-edge onset timestamps of a call sequence, given the previous
blink flag: a call contributes its time exactly when its flag is `true` and
the preceding flag was `false`. -/
def onsets : Bool → List (ℚ × Bool) → List ℚ
  | _, [] => []
  | prev, c :: rest => (if c.2 && !prev then [c.1] else []) ++ onsets c.2 rest

/-! ## Edge-metrics collector (`metrics_collector.cpp` lines 101–149) -/

/-- One 2-D facial landmark (only `x` and `y` are consumed). -/
structure Landmark where
  x : ℚ
  y : ℚ
deriving DecidableEq, Repr

/-- A `DetectionStatus` entry; only `detected()` is consumed. -/
structure DetectionStatus where
  detected : Bool
deriving DecidableEq, Repr

/-- One landmark set (`value()` list, `value_size()` = its length). -/
structure LandmarkSet where
  value : List Landmark
deriving DecidableEq, Repr

/-- The face sub-message: `blinking()`, `talking()`, `landmarks()` lists;
`rbegin()` reads the last element of each. -/
structure FaceMetrics where
  blinking : List DetectionStatus
  talking : List DetectionStatus
  landmarks : List LandmarkSet
deriving DecidableEq, Repr

/-- The edge `Metrics` message: `has_face()` / `face()`. -/
structure EdgeMetrics where
  face : Option FaceMetrics
deriving DecidableEq, Repr

/-- `face_center_x = (left_cheek.x() + right_cheek.x()) / 2.0f` with indices
234 and 454 (`metrics_collector.cpp` line 134). -/
def faceCenterX (lm : LandmarkSet) : ℚ :=
  ((lm.value.getD 234 ⟨0, 0⟩).x + (lm.value.getD 454 ⟨0, 0⟩).x) / 2

/-- `face_center_y = (forehead.y() + chin.y()) / 2.0f` with indices 10 and
152 (`metrics_collector.cpp` line 135). -/
def faceCenterY (lm : LandmarkSet) : ℚ :=
  ((lm.value.getD 10 ⟨0, 0⟩).y + (lm.value.getD 152 ⟨0, 0⟩).y) / 2

/-- `right_cheek.x() - left_cheek.x()` with indices 454 and 234
(`metrics_collector.cpp` line 136). -/
def faceWidth (lm : LandmarkSet) : ℚ :=
  (lm.value.getD 454 ⟨0, 0⟩).x - (lm.value.getD 234 ⟨0, 0⟩).x

/-- `chin.y() - forehead.y()` with indices 152 and 10
(`metrics_collector.cpp` line 137). -/
def faceHeight (lm : LandmarkSet) : ℚ :=
  (lm.value.getD 152 ⟨0, 0⟩).y - (lm.value.getD 10 ⟨0, 0⟩).y

/-- The gaze update of `process_edge_metrics` (lines 122–145): from the
latest landmark set, when it has at least 468 points (index 4 is the nose
tip) and a non-degenerate bounding box, write the normalised gaze vector
and `has_gaze = true`; otherwise leave the snapshot untouched. -/
def gazeUpdate (cm : FocusMetrics) (lm : LandmarkSet) : FocusMetrics :=
  if lm.value.length ≥ 468 then
    if faceWidth lm > 1 ∧ faceHeight lm > 1 then
      { cm with
        gaze_x := ((lm.value.getD 4 ⟨0, 0⟩).x - faceCenterX lm) / (faceWidth lm / 2)
        gaze_y := ((lm.value.getD 4 ⟨0, 0⟩).y - faceCenterY lm) / (faceHeight lm / 2)
        has_gaze := true }
    else cm
  else cm

/-- `MetricsCollector::process_edge_metrics` (`metrics_collector.cpp`
lines 101–149), acting on the blink-estimator state and the aggregated
snapshot `current_metrics_`.  `now` is the steady-clock reading used by the
nested `estimate_blink_rate` call. -/
def process_edge_metrics (now : ℚ) (bs : BlinkState) (cm : FocusMetrics)
    (e : EdgeMetrics) : BlinkState × FocusMetrics :=
  match e.face with
  | some face =>
    let cm1 := { cm with face_detected := true }
    let step2 : BlinkState × FocusMetrics :=
      match face.blinking.getLast? with
      | some d =>
        let est := estimate_blink_rate now d.detected bs
        (est.1, { cm1 with is_blinking := d.detected, blink_rate_per_min := est.2 })
      | none => (bs, cm1)
    let cm3 : FocusMetrics :=
      match face.talking.getLast? with
      | some d => { step2.2 with is_talking := d.detected }
      | none => step2.2
    let cm4 : FocusMetrics :=
      match face.landmarks.getLast? with
      | some lm => gazeUpdate cm3 lm
      | none => cm3
    (step2.1, cm4)
  | none =>
    (bs, { cm with face_detected := false, has_gaze := false })

/-- The spec's score policy for the classifier: the focus score lies in
[0, 1] overall, with the fixed per-state values and ranges of the state
table. -/
def scoreOk (r : AnalyzeResult) : Prop :=
  0 ≤ r.score ∧ r.score ≤ 1
  ∧ (r.state = FocusState.AWAY → r.score = 0)
  ∧ (r.state = FocusState.TALKING → r.score = 3/10)
  ∧ (r.state = FocusState.DISTRACTED → 1/10 ≤ r.score ∧ r.score ≤ 6/10)
  ∧ (r.state = FocusState.DROWSY → r.score = 3/20)
  ∧ (r.state = FocusState.STRESSED → r.score = 1/4)
  ∧ (r.state = FocusState.UNKNOWN → r.score = 1/2)
  ∧ (r.state = FocusState.FOCUSED → 0 < r.score ∧ r.score ≤ 1)

/-! ## Helper lemmas -/

/-- Rat.floor agrees with the floor of the `FloorRing ℚ` instance. -/
lemma rat_floor_eq_int_floor (q : ℚ) : q.floor = ⌊q⌋ := rfl

/-- Unfolding equation of `onsets` on the empty call list. -/
lemma onsets_nil (prev : Bool) : onsets prev [] = [] := rfl

/-- Unfolding equation of `onsets` on a cons cell. -/
lemma onsets_cons (prev : Bool) (c : ℚ × Bool) (rest : List (ℚ × Bool)) :
    onsets prev (c :: rest) = (if c.2 && !prev then [c.1] else []) ++ onsets c.2 rest := rfl

/-- On a nondecreasing list, dropping the front entries below a cutoff is the
same as filtering by the cutoff (the C++ deque eviction loop). -/
lemma dropWhile_lt_eq_filter (c : ℚ) (xs : List ℚ) (h : xs.Pairwise (· ≤ ·)) :
    xs.dropWhile (fun t => decide (t < c)) = xs.filter (fun t => decide (c ≤ t)) := by
  induction xs with
  | nil => rfl
  | cons x rest ih =>
    rcases List.pairwise_cons.mp h with ⟨hx, hrest⟩
    by_cases hxc : x < c
    · have h1 : ¬ c ≤ x := not_le.mpr hxc
      simp [List.dropWhile_cons, List.filter_cons, hxc, h1, ih hrest]
    · push_neg at hxc
      have hall : ∀ t ∈ rest, c ≤ t := fun t ht => le_trans hxc (hx t ht)
      have h2 : ¬ x < c := not_lt.mpr hxc
      simp only [List.dropWhile_cons, List.filter_cons, decide_eq_true_eq, h2, if_false,
        hxc, if_true]
      rw [List.filter_eq_self.mpr]
      intro a ha
      exact decide_eq_true (hall a ha)

/-- Filtering by a later cutoff absorbs an earlier-cutoff filter. -/
lemma filter_ge_absorb (a b : ℚ) (hab : a ≤ b) (xs : List ℚ) :
    (xs.filter (fun t => decide (a ≤ t))).filter (fun t => decide (b ≤ t))
      = xs.filter (fun t => decide (b ≤ t)) := by
  rw [List.filter_filter]
  apply List.filter_congr
  intro t _
  by_cases hbt : b ≤ t
  · have : a ≤ t := le_trans hab hbt
    simp [hbt, this]
  · simp [hbt]

/-- One `estimate_blink_rate` call turns the retained timestamps into the
window filter of the old timestamps plus this call's onset (if any). -/
lemma estimate_ts_eq (now : ℚ) (b : Bool) (s : BlinkState)
    (hsort : s.blink_timestamps.Pairwise (· ≤ ·))
    (hb : ∀ t ∈ s.blink_timestamps, t ≤ now) :
    ((estimate_blink_rate now b s).1).blink_timestamps
      = (s.blink_timestamps ++ onsets s.prev_blink_state [(now, b)]).filter
          (fun t => decide (now - 60 ≤ t)) := by
  unfold estimate_blink_rate
  rw [onsets_cons, onsets_nil, List.append_nil]
  cases hedge : (b && !s.prev_blink_state) with
  | true =>
    simp only [hedge, if_true, List.append_nil]
    apply dropWhile_lt_eq_filter
    rw [List.pairwise_append]
    refine ⟨hsort, List.pairwise_singleton _ _, ?_⟩
    intro t ht u hu
    rw [List.mem_singleton] at hu
    subst hu
    exact hb t ht
  | false =>
    simp only [hedge, Bool.false_eq_true, if_false, List.append_nil]
    exact dropWhile_lt_eq_filter _ _ hsort

/-- Running the estimator over a nondecreasing call sequence and then making
one more call retains exactly the onsets inside the final 60-second window
(together with whatever initial timestamps survive the final cutoff). -/
lemma run_then_estimate (calls : List (ℚ × Bool)) :
    ∀ (s : BlinkState) (c : ℚ × Bool),
    s.blink_timestamps.Pairwise (· ≤ ·) →
    (∀ t ∈ s.blink_timestamps, ∀ p ∈ calls ++ [c], t ≤ p.1) →
    ((calls ++ [c]).map Prod.fst).Pairwise (· ≤ ·) →
    ((estimate_blink_rate c.1 c.2 (runBlink s calls)).1).blink_timestamps
      = (s.blink_timestamps ++ onsets s.prev_blink_state (calls ++ [c])).filter
          (fun t => decide (c.1 - 60 ≤ t)) := by
  induction calls with
  | nil =>
    intro s c hsort hbound _
    have hb : ∀ t ∈ s.blink_timestamps, t ≤ c.1 := by
      intro t ht
      exact hbound t ht c (by simp)
    have := estimate_ts_eq c.1 c.2 s hsort hb
    simpa [runBlink] using this
  | cons p rest ih =>
    intro s c hsort hbound hmono
    have hbp : ∀ t ∈ s.blink_timestamps, t ≤ p.1 := by
      intro t ht
      exact hbound t ht p (by simp)
    have hhead : ∀ q ∈ rest ++ [c], p.1 ≤ q.1 := by
      have h1 : (((p :: rest) ++ [c]).map Prod.fst).Pairwise (· ≤ ·) := hmono
      rw [List.cons_append, List.map_cons, List.pairwise_cons] at h1
      intro q hq
      exact h1.1 q.1 (List.mem_map_of_mem Prod.fst hq)
    set s1 := (estimate_blink_rate p.1 p.2 s).1 with hs1
    have hts1 : s1.blink_timestamps
        = (s.blink_timestamps ++ onsets s.prev_blink_state [(p.1, p.2)]).filter
            (fun t => decide (p.1 - 60 ≤ t)) :=
      estimate_ts_eq p.1 p.2 s hsort hbp
    have hprev1 : s1.prev_blink_state = p.2 := rfl
    have hsort_app : (s.blink_timestamps
        ++ onsets s.prev_blink_state [(p.1, p.2)]).Pairwise (· ≤ ·) := by
      rw [List.pairwise_append]
      refine ⟨hsort, ?_, ?_⟩
      · rw [onsets_cons, onsets_nil, List.append_nil]
        cases (p.2 && !s.prev_blink_state) <;> simp
      · intro t ht u hu
        rw [onsets_cons, onsets_nil, List.append_nil] at hu
        rcases Bool.eq_false_or_eq_true (p.2 && !s.prev_blink_state) with hc | hc <;>
          simp [hc] at hu
        subst hu
        exact hbp t ht
    have hsort1 : s1.blink_timestamps.Pairwise (· ≤ ·) := by
      rw [hts1]
      exact List.Pairwise.filter _ hsort_app
    have hbound1 : ∀ t ∈ s1.blink_timestamps, ∀ q ∈ rest ++ [c], t ≤ q.1 := by
      intro t ht q hq
      rw [hts1] at ht
      have ht' := List.mem_of_mem_filter ht
      rw [List.mem_append] at ht'
      rcases ht' with h | h
      · exact hbound t h q (by simp [List.mem_append] at hq ⊢; tauto)
      · have : t = p.1 := by
          rw [onsets_cons, onsets_nil, List.append_nil] at h
          rcases Bool.eq_false_or_eq_true (p.2 && !s.prev_blink_state) with hc | hc <;>
            simp [hc] at h
          exact h
        subst this
        exact hhead q hq
    have hmono1 : ((rest ++ [c]).map Prod.fst).Pairwise (· ≤ ·) := by
      rw [List.cons_append, List.map_cons, List.pairwise_cons] at hmono
      exact hmono.2
    have hrun : runBlink s (p :: rest) = runBlink s1 rest := rfl
    have hIH := ih s1 c hsort1 hbound1 hmono1
    have hcut : p.1 - 60 ≤ c.1 - 60 := by
      have : p.1 ≤ c.1 := hhead c (by simp)
      linarith
    have honsets : onsets s.prev_blink_state [(p.1, p.2)] ++ onsets p.2 (rest ++ [c])
        = onsets s.prev_blink_state ((p :: rest) ++ [c]) := by
      rw [List.cons_append, onsets_cons, onsets_cons, onsets_nil, List.append_nil]
    rw [hrun, hIH, hts1, hprev1, List.filter_append, filter_ge_absorb _ _ hcut,
      ← List.filter_append, List.append_assoc, honsets]

/-- Every call to the classifier yields one of the seven fixed
state/score pairs. -/
lemma analyzeStateScore_cases (sqrtFn : ℚ → ℚ) (th : FocusThresholds)
    (s' : AnalyzerState) (now : ℚ) (m : FocusMetrics) :
    analyzeStateScore sqrtFn th s' now m = (FocusState.AWAY, 0)
    ∨ analyzeStateScore sqrtFn th s' now m = (FocusState.TALKING, 3/10)
    ∨ analyzeStateScore sqrtFn th s' now m
        = (FocusState.DISTRACTED,
            max (1/10) (6/10 - sqrtFn (m.gaze_x * m.gaze_x + m.gaze_y * m.gaze_y) * (3/10)))
    ∨ analyzeStateScore sqrtFn th s' now m = (FocusState.DROWSY, 3/20)
    ∨ analyzeStateScore sqrtFn th s' now m = (FocusState.STRESSED, 1/4)
    ∨ analyzeStateScore sqrtFn th s' now m = (FocusState.FOCUSED, focusedScore th m)
    ∨ analyzeStateScore sqrtFn th s' now m = (FocusState.UNKNOWN, 1/2) := by
  unfold analyzeStateScore
  split_ifs <;> tauto

/-! ## Claim theorems -/

/-- C1 (counterexample): the claim says a frame update with a face present
but an unusable landmark set reports `has_gaze = false` regardless of the
previous snapshot; here a face is present, the latest landmark set has fewer
than 468 points, the snapshot's `has_gaze` was `true` before the call, and
it is still `true` afterwards. -/
theorem edge_gaze_stale_counterexample :
    (⟨[]⟩ : LandmarkSet).value.length < 468
    ∧ (process_edge_metrics 0 initialBlinkState
        { defaultFocusMetrics with face_detected := true, has_gaze := true }
        ⟨some ⟨[], [], [⟨[]⟩]⟩⟩).2.has_gaze = true :=
  ⟨by norm_num, rfl⟩

/-- C1 (amended): for every frame update in which a face is present but the
gaze computation cannot proceed — the latest landmark set has fewer than 468
points, or its derived face width is ≤ 1.0, or its derived face height is
≤ 1.0 — `process_edge_metrics` computes no gaze vector and leaves the
snapshot's `has_gaze`, `gaze_x` and `gaze_y` exactly as they were before the
call (in particular `has_gaze` stays `false` if it was `false`). -/
theorem edge_gaze_blocked_leaves_gaze (now : ℚ) (bs : BlinkState)
    (cm : FocusMetrics) (e : EdgeMetrics) (f : FaceMetrics) (lm : LandmarkSet)
    (hf : e.face = some f) (hlm : f.landmarks.getLast? = some lm)
    (hblocked : lm.value.length < 468 ∨ faceWidth lm ≤ 1 ∨ faceHeight lm ≤ 1) :
    ((process_edge_metrics now bs cm e).2).has_gaze = cm.has_gaze
    ∧ ((process_edge_metrics now bs cm e).2).gaze_x = cm.gaze_x
    ∧ ((process_edge_metrics now bs cm e).2).gaze_y = cm.gaze_y := by
  have hgaze : ∀ c : FocusMetrics,
      (gazeUpdate c lm).has_gaze = c.has_gaze
      ∧ (gazeUpdate c lm).gaze_x = c.gaze_x
      ∧ (gazeUpdate c lm).gaze_y = c.gaze_y := by
    intro c
    unfold gazeUpdate
    rcases hblocked with h | h | h
    · rw [if_neg (by omega)]
      exact ⟨rfl, rfl, rfl⟩
    · by_cases h468 : lm.value.length ≥ 468
      · rw [if_pos h468, if_neg (by intro hc; exact absurd hc.1 (not_lt.mpr h))]
        exact ⟨rfl, rfl, rfl⟩
      · rw [if_neg h468]
        exact ⟨rfl, rfl, rfl⟩
    · by_cases h468 : lm.value.length ≥ 468
      · rw [if_pos h468, if_neg (by intro hc; exact absurd hc.2 (not_lt.mpr h))]
        exact ⟨rfl, rfl, rfl⟩
      · rw [if_neg h468]
        exact ⟨rfl, rfl, rfl⟩
  unfold process_edge_metrics
  rw [hf]
  cases hb : f.blinking.getLast? <;> cases ht : f.talking.getLast? <;>
    simp [hb, ht, hlm, hgaze]

/-- C1 (witness): the amended theorem at a concrete input — face present,
one landmark set with 0 points, prior snapshot with `has_gaze = true`. -/
theorem edge_gaze_blocked_leaves_gaze_witness :
    (process_edge_metrics 0 initialBlinkState
        { defaultFocusMetrics with face_detected := true, has_gaze := true }
        ⟨some ⟨[], [], [⟨[]⟩]⟩⟩).2.has_gaze
      = ({ defaultFocusMetrics with
            face_detected := true, has_gaze := true } : FocusMetrics).has_gaze
    ∧ (process_edge_metrics 0 initialBlinkState
        { defaultFocusMetrics with face_detected := true, has_gaze := true }
        ⟨some ⟨[], [], [⟨[]⟩]⟩⟩).2.gaze_x
      = ({ defaultFocusMetrics with
            face_detected := true, has_gaze := true } : FocusMetrics).gaze_x
    ∧ (process_edge_metrics 0 initialBlinkState
        { defaultFocusMetrics with face_detected := true, has_gaze := true }
        ⟨some ⟨[], [], [⟨[]⟩]⟩⟩).2.gaze_y
      = ({ defaultFocusMetrics with
            face_detected := true, has_gaze := true } : FocusMetrics).gaze_y :=
  edge_gaze_blocked_leaves_gaze 0 initialBlinkState
    { defaultFocusMetrics with face_detected := true, has_gaze := true }
    ⟨some ⟨[], [], [⟨[]⟩]⟩⟩ ⟨[], [], [⟨[]⟩]⟩ ⟨[]⟩ rfl rfl
    (Or.inl (by norm_num))

/-- C2 (confirmed): a snapshot with a face, not talking, gaze available with
magnitude above the distraction threshold, and blink rate above the drowsy
threshold classifies as DISTRACTED with score
`max(0.1, 0.6 − magnitude·0.3)` — the DISTRACTED rule precedes the DROWSY
rule, first match wins. -/
theorem distracted_before_drowsy (sqrtFn : ℚ → ℚ) (th : FocusThresholds)
    (s : AnalyzerState) (now : ℚ) (m : FocusMetrics)
    (hface : m.face_detected = true) (htalk : m.is_talking = false)
    (hgaze : m.has_gaze = true)
    (hmag : sqrtFn (m.gaze_x * m.gaze_x + m.gaze_y * m.gaze_y) >
      th.gaze_distraction_threshold)
    (hblink : m.blink_rate_per_min > th.blink_rate_drowsy_threshold) :
    (analyze sqrtFn th s now m).state = FocusState.DISTRACTED
    ∧ (analyze sqrtFn th s now m).score
        = max (1/10)
            (6/10 - sqrtFn (m.gaze_x * m.gaze_x + m.gaze_y * m.gaze_y) * (3/10)) := by
  have hb : m.blink_rate_per_min > th.blink_rate_drowsy_threshold := hblink
  clear hblink
  simp [analyze, analyzeStateScore, hface, htalk, hgaze, hmag]

/-- C2 (witness): gaze (0.6, 0.8) with unit magnitude and blink rate 30
gives DISTRACTED with score 0.3 under the default thresholds. -/
theorem distracted_before_drowsy_witness :
    (analyze (fun _ => 1) defaultThresholds ⟨0, false⟩ 0
        { defaultFocusMetrics with
            face_detected := true, has_gaze := true,
            gaze_x := 3/5, gaze_y := 4/5, blink_rate_per_min := 30 }).state
      = FocusState.DISTRACTED
    ∧ (analyze (fun _ => 1) defaultThresholds ⟨0, false⟩ 0
        { defaultFocusMetrics with
            face_detected := true, has_gaze := true,
            gaze_x := 3/5, gaze_y := 4/5, blink_rate_per_min := 30 }).score
      = 3/10 := by
  have h := distracted_before_drowsy (fun _ => 1) defaultThresholds ⟨0, false⟩ 0
    { defaultFocusMetrics with
        face_detected := true, has_gaze := true,
        gaze_x := 3/5, gaze_y := 4/5, blink_rate_per_min := 30 }
    rfl rfl rfl (by norm_num [defaultThresholds])
    (by norm_num [defaultThresholds, defaultFocusMetrics])
  refine ⟨h.1, ?_⟩
  rw [h.2]
  norm_num

/-- C3 (confirmed): STRESSED is produced only when both vitals conditions
hold — pulse present and above the pulse-stress threshold, and breathing
present and above the breathing-stress threshold; in particular an elevated
pulse with absent or normal breathing never classifies as STRESSED. -/
theorem stressed_requires_both_vitals (sqrtFn : ℚ → ℚ) (th : FocusThresholds)
    (s : AnalyzerState) (now : ℚ) (m : FocusMetrics)
    (h : (analyze sqrtFn th s now m).state = FocusState.STRESSED) :
    m.has_pulse = true ∧ m.pulse_rate_bpm > th.pulse_stressed_threshold
    ∧ m.has_breathing = true
    ∧ m.breathing_rate_bpm > th.breathing_stressed_threshold := by
  unfold analyze analyzeStateScore at h
  cases hface : m.face_detected with
  | false =>
    simp only [hface] at h
    simp at h
    split at h <;> simp_all
  | true =>
    simp only [hface] at h
    simp at h
    split_ifs at h <;> simp_all [stressedCondition]

/-- C3 (witness): the end-to-end STRESSED scenario — pulse 110 over
threshold 100 and breathing 25 over threshold 22 — does classify as
STRESSED, and the theorem recovers both vitals conditions from it. -/
theorem stressed_requires_both_vitals_witness :
    ({ defaultFocusMetrics with
        face_detected := true, has_pulse := true, pulse_rate_bpm := 110,
        has_breathing := true, breathing_rate_bpm := 25 } : FocusMetrics).has_pulse = true
    ∧ ({ defaultFocusMetrics with
        face_detected := true, has_pulse := true, pulse_rate_bpm := 110,
        has_breathing := true, breathing_rate_bpm := 25 } : FocusMetrics).pulse_rate_bpm
        > defaultThresholds.pulse_stressed_threshold
    ∧ ({ defaultFocusMetrics with
        face_detected := true, has_pulse := true, pulse_rate_bpm := 110,
        has_breathing := true, breathing_rate_bpm := 25 } : FocusMetrics).has_breathing = true
    ∧ ({ defaultFocusMetrics with
        face_detected := true, has_pulse := true, pulse_rate_bpm := 110,
        has_breathing := true, breathing_rate_bpm := 25 } : FocusMetrics).breathing_rate_bpm
        > defaultThresholds.breathing_stressed_threshold :=
  stressed_requires_both_vitals (fun _ => 0) defaultThresholds ⟨0, false⟩ 0
    { defaultFocusMetrics with
        face_detected := true, has_pulse := true, pulse_rate_bpm := 110,
        has_breathing := true, breathing_rate_bpm := 25 }
    (by decide)

/-- C4 (confirmed): a classifier that has never observed a face, given a
no-face snapshot, returns UNKNOWN with focus score 0.5 — never AWAY —
regardless of the clock reading. -/
theorem never_seen_face_unknown (sqrtFn : ℚ → ℚ) (th : FocusThresholds)
    (s : AnalyzerState) (now : ℚ) (m : FocusMetrics)
    (hseen : s.ever_seen_face = false) (hface : m.face_detected = false) :
    (analyze sqrtFn th s now m).state = FocusState.UNKNOWN
    ∧ (analyze sqrtFn th s now m).score = 1/2 := by
  simp [analyze, analyzeStateScore, hseen, hface]

/-- C4 (witness): a fresh classifier asked to classify the default (empty)
snapshot a million seconds after construction still answers UNKNOWN, 0.5. -/
theorem never_seen_face_unknown_witness :
    (analyze (fun _ => 0) defaultThresholds ⟨0, false⟩ 1000000 defaultFocusMetrics).state
        = FocusState.UNKNOWN
    ∧ (analyze (fun _ => 0) defaultThresholds ⟨0, false⟩ 1000000 defaultFocusMetrics).score
        = 1/2 :=
  never_seen_face_unknown (fun _ => 0) defaultThresholds ⟨0, false⟩ 1000000
    defaultFocusMetrics rfl rfl

/-- C5 (counterexample): the claim says any elapsed time strictly greater
than the timeout yields AWAY; at elapsed time 3.0005 s — strictly greater
than the default 3.0 s timeout — the millisecond truncation of
`duration_cast` makes the comparison `3.000 > 3.0` fail and the state is not
AWAY. -/
theorem away_subms_elapsed_not_away :
    (6001/2000 : ℚ) - (0 : ℚ) > defaultThresholds.face_absence_timeout_s
    ∧ (analyze (fun _ => 0) defaultThresholds ⟨0, true⟩ (6001/2000)
        defaultFocusMetrics).state ≠ FocusState.AWAY := by
  constructor
  · norm_num [defaultThresholds]
  · have hstate : (analyze (fun _ => 0) defaultThresholds ⟨0, true⟩ (6001/2000)
        defaultFocusMetrics).state = FocusState.UNKNOWN := by
      unfold analyze analyzeStateScore
      norm_num [defaultFocusMetrics, defaultThresholds, rat_floor_eq_int_floor]
    rw [hstate]
    simp

/-- C5 (amended): for a classifier that has seen a face and now receives a
no-face snapshot, elapsed time strictly below the timeout never yields AWAY
(the comparison is strict), and AWAY with score 0.0 is produced exactly when
the elapsed time truncated to whole milliseconds
(`floor(1000·elapsed)/1000`) exceeds the timeout — so with the default 3.0 s
timeout the first AWAY needs elapsed ≥ 3.001 s, not merely > 3.0 s. -/
theorem away_timing_truncated (sqrtFn : ℚ → ℚ) (th : FocusThresholds)
    (s : AnalyzerState) (now : ℚ) (m : FocusMetrics)
    (hseen : s.ever_seen_face = true) (hface : m.face_detected = false) :
    (now - s.last_face_seen < th.face_absence_timeout_s →
      (analyze sqrtFn th s now m).state ≠ FocusState.AWAY)
    ∧ (((((now - s.last_face_seen) * 1000).floor : ℚ) / 1000 > th.face_absence_timeout_s) ↔
      ((analyze sqrtFn th s now m).state = FocusState.AWAY
        ∧ (analyze sqrtFn th s now m).score = 0)) := by
  have hiff : ((((now - s.last_face_seen) * 1000).floor : ℚ) / 1000
        > th.face_absence_timeout_s) ↔
      ((analyze sqrtFn th s now m).state = FocusState.AWAY
        ∧ (analyze sqrtFn th s now m).score = 0) := by
    by_cases hgt : (((now - s.last_face_seen) * 1000).floor : ℚ) / 1000
        > th.face_absence_timeout_s
    · constructor
      · intro _
        unfold analyze analyzeStateScore
        simp [hseen, hface, hgt]
      · intro _
        exact hgt
    · constructor
      · intro h
        exact absurd h hgt
      · intro hstate
        exfalso
        have : (analyze sqrtFn th s now m).state = FocusState.UNKNOWN := by
          unfold analyze analyzeStateScore
          simp [hseen, hface, hgt]
        rw [this] at hstate
        exact absurd hstate.1 (by simp)
  constructor
  · intro hlt
    have htrunc : ((((now - s.last_face_seen) * 1000).floor : ℚ)) / 1000
        ≤ now - s.last_face_seen := by
      rw [rat_floor_eq_int_floor]
      have h1 : ((⌊(now - s.last_face_seen) * 1000⌋ : ℚ))
          ≤ (now - s.last_face_seen) * 1000 := Int.floor_le _
      linarith
    have hnot : ¬ ((((now - s.last_face_seen) * 1000).floor : ℚ) / 1000
        > th.face_absence_timeout_s) := by
      push_neg
      linarith
    have hunknown : (analyze sqrtFn th s now m).state = FocusState.UNKNOWN := by
      unfold analyze analyzeStateScore
      simp [hseen, hface, hnot]
    rw [hunknown]
    simp
  · exact hiff

/-- C5 (witness): with the default thresholds and the face last seen at
t = 0, classifying a no-face snapshot at t = 2 s is not AWAY, while at
t = 3.001 s it is AWAY with score 0. -/
theorem away_timing_truncated_witness :
    ((2:ℚ) - (0:ℚ) < defaultThresholds.face_absence_timeout_s
      ∧ (analyze (fun _ => 0) defaultThresholds ⟨0, true⟩ 2 defaultFocusMetrics).state
          ≠ FocusState.AWAY)
    ∧ ((((((3001:ℚ)/1000 - 0) * 1000).floor : ℚ) / 1000
          > defaultThresholds.face_absence_timeout_s)
      ∧ (analyze (fun _ => 0) defaultThresholds ⟨0, true⟩ (3001/1000) defaultFocusMetrics).state
          = FocusState.AWAY
      ∧ (analyze (fun _ => 0) defaultThresholds ⟨0, true⟩ (3001/1000) defaultFocusMetrics).score
          = 0) := by
  constructor
  · exact ⟨by norm_num [defaultThresholds],
      (away_timing_truncated (fun _ => 0) defaultThresholds ⟨0, true⟩ 2
        defaultFocusMetrics rfl rfl).1 (by norm_num [defaultThresholds])⟩
  · refine ⟨by rw [rat_floor_eq_int_floor]; norm_num [defaultThresholds], ?_⟩
    exact (away_timing_truncated (fun _ => 0) defaultThresholds ⟨0, true⟩ (3001/1000)
      defaultFocusMetrics rfl rfl).2.mp
      (by rw [rat_floor_eq_int_floor]; norm_num [defaultThresholds])

/-- C6 (confirmed): for every sequence of estimator calls with nondecreasing
call times (the monotonic clock), the rate returned by the final call equals
the number of rising-edge onsets whose timestamps lie within the trailing
60-second window ending at that call's time, and it is never negative (0
when the window holds no onset). -/
theorem blink_rate_counts_window_onsets (calls : List (ℚ × Bool)) (c : ℚ × Bool)
    (hmono : ((calls ++ [c]).map Prod.fst).Pairwise (· ≤ ·)) :
    (estimate_blink_rate c.1 c.2 (runBlink initialBlinkState calls)).2
      = (((onsets false (calls ++ [c])).filter
          (fun t => decide (c.1 - 60 ≤ t))).length : ℚ)
    ∧ 0 ≤ (estimate_blink_rate c.1 c.2 (runBlink initialBlinkState calls)).2 := by
  have hts := run_then_estimate calls initialBlinkState c
    (by simp [initialBlinkState]) (by simp [initialBlinkState]) hmono
  have hlen : (estimate_blink_rate c.1 c.2 (runBlink initialBlinkState calls)).2
      = (((estimate_blink_rate c.1 c.2
          (runBlink initialBlinkState calls)).1).blink_timestamps.length : ℚ) := rfl
  constructor
  · rw [hlen, hts]
    simp [initialBlinkState]
  · rw [hlen]
    exact_mod_cast Nat.cast_nonneg _

/-- C6 (witness): calls at t = 0 (blink), t = 30 (no blink), t = 61 (blink)
produce two onsets, of which only the one at t = 61 lies in the window
[1, 61], so the final rate is 1. -/
theorem blink_rate_counts_window_onsets_witness :
    (estimate_blink_rate 61 true (runBlink initialBlinkState [(0, true), (30, false)])).2
      = (((onsets false ([(0, true), (30, false)] ++ [((61:ℚ), true)])).filter
          (fun t => decide ((61:ℚ) - 60 ≤ t))).length : ℚ)
    ∧ 0 ≤ (estimate_blink_rate 61 true
        (runBlink initialBlinkState [(0, true), (30, false)])).2 :=
  blink_rate_counts_window_onsets [(0, true), (30, false)] (61, true) (by decide)

/-- C7 (confirmed): the implemented DROWSY trigger
`high_blink_rate || (high_blink_rate && slow_breathing)` is equal, as a
boolean function of the snapshot, to the spec's collapsed condition that the
blink rate exceed the drowsy threshold — the breathing rate has no effect. -/
theorem drowsy_condition_collapses (th : FocusThresholds) (m : FocusMetrics) :
    drowsyCondition th m = drowsyConditionSpec th m := by
  unfold drowsyCondition drowsyConditionSpec
  cases h : decide (m.blink_rate_per_min > th.blink_rate_drowsy_threshold) <;> simp [h]

/-- C8 (confirmed): for every snapshot and classifier state, provided the
square-root realisation is nonnegative on the gaze magnitude argument and
the pulse-stress threshold is positive (as its default 100 is), the focus
score lies in [0, 1] with the per-state values of the table: AWAY 0,
TALKING 0.3, DISTRACTED in [0.1, 0.6], DROWSY 0.15, STRESSED 0.25,
UNKNOWN 0.5, FOCUSED in (0, 1]. -/
theorem analyze_score_in_range (sqrtFn : ℚ → ℚ) (th : FocusThresholds)
    (s : AnalyzerState) (now : ℚ) (m : FocusMetrics)
    (hsq : 0 ≤ sqrtFn (m.gaze_x * m.gaze_x + m.gaze_y * m.gaze_y))
    (hth : 0 < th.pulse_stressed_threshold) :
    scoreOk (analyze sqrtFn th s now m) := by
  have hd2 : max (1/10 : ℚ)
      (6/10 - sqrtFn (m.gaze_x * m.gaze_x + m.gaze_y * m.gaze_y) * (3/10)) ≤ 6/10 := by
    apply max_le (by norm_num)
    have h0 : 0 ≤ sqrtFn (m.gaze_x * m.gaze_x + m.gaze_y * m.gaze_y) * (3/10) :=
      mul_nonneg hsq (by norm_num)
    linarith
  have hd1 : (1/10 : ℚ) ≤ max (1/10 : ℚ)
      (6/10 - sqrtFn (m.gaze_x * m.gaze_x + m.gaze_y * m.gaze_y) * (3/10)) :=
    le_max_left _ _
  have hf1 : 0 < focusedScore th m := by
    unfold focusedScore
    split_ifs with hp
    · exact lt_min (by norm_num) (div_pos hth hp.2)
    · norm_num
  have hf2 : focusedScore th m ≤ 1 := by
    unfold focusedScore
    split_ifs with hp
    · exact min_le_left _ _
    · norm_num
  have hkey : analyze sqrtFn th s now m
      = ⟨if m.face_detected = true then ⟨now, true⟩ else s,
          (analyzeStateScore sqrtFn th
            (if m.face_detected = true then ⟨now, true⟩ else s) now m).1,
          (analyzeStateScore sqrtFn th
            (if m.face_detected = true then ⟨now, true⟩ else s) now m).2⟩ := rfl
  rcases analyzeStateScore_cases sqrtFn th
      (if m.face_detected = true then ⟨now, true⟩ else s) now m with
    h | h | h | h | h | h | h <;>
    rw [hkey, h] <;> unfold scoreOk <;> dsimp only <;>
    refine ⟨?_, ?_, ?_, ?_, ?_, ?_, ?_, ?_, ?_⟩ <;>
    first
      | (norm_num; done)
      | (norm_num; simp; done)
      | (simp; done)
      | (intro hcontra; simp at hcontra; done)
      | (intro _; exact ⟨hd1, hd2⟩)
      | (intro _; exact ⟨hf1, hf2⟩)
      | exact hf2
      | exact hf1.le
      | exact ⟨hf1, hf2⟩
      | exact ⟨hd1, hd2⟩
      | linarith [hd1, hd2]

/-- C8 (witness): the invariant evaluated at the default snapshot and
thresholds with the zero square-root realisation. -/
theorem analyze_score_in_range_witness :
    scoreOk (analyze (fun _ => 0) defaultThresholds ⟨0, false⟩ 0 defaultFocusMetrics) :=
  analyze_score_in_range (fun _ => 0) defaultThresholds ⟨0, false⟩ 0
    defaultFocusMetrics (le_refl 0) (by norm_num [defaultThresholds])

/-- C9 (confirmed): whenever the snapshot has a face, the classifier answers
one of TALKING, DISTRACTED, DROWSY, STRESSED or FOCUSED — never UNKNOWN and
never AWAY: the face observation sets the ever-seen flag before any rule
runs, AWAY additionally requires face absence, and the FOCUSED fallback
fires when no earlier rule matched. -/
theorem face_detected_active_state (sqrtFn : ℚ → ℚ) (th : FocusThresholds)
    (s : AnalyzerState) (now : ℚ) (m : FocusMetrics)
    (hface : m.face_detected = true) :
    (analyze sqrtFn th s now m).state = FocusState.TALKING
    ∨ (analyze sqrtFn th s now m).state = FocusState.DISTRACTED
    ∨ (analyze sqrtFn th s now m).state = FocusState.DROWSY
    ∨ (analyze sqrtFn th s now m).state = FocusState.STRESSED
    ∨ (analyze sqrtFn th s now m).state = FocusState.FOCUSED := by
  unfold analyze analyzeStateScore
  simp only [hface]
  simp
  split_ifs <;> simp

/-- C9 (witness): the bare face-only snapshot classifies as FOCUSED, one of
the five allowed states. -/
theorem face_detected_active_state_witness :
    (analyze (fun _ => 0) defaultThresholds ⟨0, false⟩ 0
        { defaultFocusMetrics with face_detected := true }).state = FocusState.TALKING
    ∨ (analyze (fun _ => 0) defaultThresholds ⟨0, false⟩ 0
        { defaultFocusMetrics with face_detected := true }).state = FocusState.DISTRACTED
    ∨ (analyze (fun _ => 0) defaultThresholds ⟨0, false⟩ 0
        { defaultFocusMetrics with face_detected := true }).state = FocusState.DROWSY
    ∨ (analyze (fun _ => 0) defaultThresholds ⟨0, false⟩ 0
        { defaultFocusMetrics with face_detected := true }).state = FocusState.STRESSED
    ∨ (analyze (fun _ => 0) defaultThresholds ⟨0, false⟩ 0
        { defaultFocusMetrics with face_detected := true }).state = FocusState.FOCUSED :=
  face_detected_active_state (fun _ => 0) defaultThresholds ⟨0, false⟩ 0
    { defaultFocusMetrics with face_detected := true } rfl
